import Mathlib

/-!
Verification of the Frontend-Agent repository (a crawler / LLM code
generator / validator pipeline written in JavaScript) against its
natural-language specification.

The JavaScript sources are shallowly embedded below.  Conventions:

* JavaScript strings are Lean `String`s; `str.includes(sub)` is embedded
  as `jsIncludes` (substring test), `str.toLowerCase()` character-wise as
  `Char.toLower` (the strings involved are ASCII).
* `null`/`undefined` arguments are embedded as `Option`.
* Code that can throw is embedded with `Except String`; external service
  calls are embedded as explicit outcome arguments (`Except String String`:
  either a thrown transport error or the returned source text).
* JavaScript `Number` arithmetic on the color values appearing here is
  exact (integer numerators below 2^53 divided by 1000, compared against
  128 and 0.3; IEEE rounding cannot flip these comparisons), so it is
  embedded as exact `ℚ` arithmetic.
* The repository snapshot stores its Unicode characters double-encoded;
  string literals below use the intended characters (`•`, `━`, `✅`).
-/

/-- Embedding of JavaScript `haystack.includes(needle)`: substring test. -/
def jsIncludes (s pat : String) : Bool :=
  decide (pat.toList <:+: s.toList)

/-- Embedding of a case-insensitive regular-expression substring test such as
`code.match(/Add/i)`: both sides are lowercased character-wise. -/
def jsIncludesCI (s pat : String) : Bool :=
  decide ((pat.toList.map Char.toLower) <:+: (s.toList.map Char.toLower))

/-- Embedding of JavaScript `s.endsWith(suffix)`. -/
def jsEndsWith (s pat : String) : Bool :=
  decide (pat.toList <:+ s.toList)

/-- Strip `pat` from the front of `l`, returning the rest on success. -/
def stripPre : List Char → List Char → Option (List Char)
  | [], l => some l
  | _ :: _, [] => none
  | p :: ps, c :: cs => if p = c then stripPre ps cs else none

/-- All suffixes of a list, longest first (used to search for a regex match
starting at every position). -/
def tailsList : List Char → List (List Char)
  | [] => [[]]
  | c :: cs => (c :: cs) :: tailsList cs

/-- The character class `\s` of JavaScript regular expressions. -/
def isJsSpace (c : Char) : Bool :=
  c = ' ' || c = '\t' || c = '\n' || c = '\x0b' || c = '\x0c' || c = '\r' ||
  c = '\u00a0' || c = '\u1680' || ('\u2000' ≤ c && c ≤ '\u200a') ||
  c = '\u2028' || c = '\u2029' || c = '\u202f' || c = '\u205f' ||
  c = '\u3000' || c = '\ufeff'

/-- Match of the regex `const\s+\[(tasks|projects|items|data)` anchored at the
head of `l`.  (`\s+` is greedy, and since `[` is not in `\s`, greedy matching
is equivalent to skipping all whitespace after at least one character.) -/
def matchStateVarAt (l : List Char) : Bool :=
  match stripPre "const".toList l with
  | none => false
  | some rest =>
    match rest with
    | [] => false
    | c :: _ =>
      isJsSpace c &&
      (match rest.dropWhile isJsSpace with
       | '[' :: rest2 =>
         (["tasks", "projects", "items", "data"].any fun w =>
           (stripPre w.toList rest2).isSome)
       | _ => false)

/-- Embedding of src/agent/llm.js line 666: `extractedCode.includes('useState')`. -/
def hasUseState (code : String) : Bool :=
  jsIncludes code "useState"

/-- Embedding of src/agent/llm.js line 667:
`extractedCode.match(/const\s+\[(tasks|projects|items|data)/)` (as a
Boolean: a match exists somewhere in the text). -/
def hasStateVariable (code : String) : Bool :=
  (tailsList code.toList).any matchStateVarAt

/-- Embedding of src/agent/llm.js lines 668-670: `extractedCode.includes('const add') ||
extractedCode.includes('const delete') || extractedCode.includes('const toggle')`. -/
def hasCRUDFunction (code : String) : Bool :=
  jsIncludes code "const add" || jsIncludes code "const delete" ||
  jsIncludes code "const toggle"

/-- Embedding of src/agent/llm.js line 671: `extractedCode.includes('onClick')`. -/
def hasOnClick (code : String) : Bool :=
  jsIncludes code "onClick"

/-- Embedding of src/agent/llm.js line 672: `extractedCode.includes('.map(')`. -/
def hasMapRendering (code : String) : Bool :=
  jsIncludes code ".map("

/-- Embedding of src/agent/llm.js line 674: the condition
`!hasUseState || !hasStateVariable || !hasCRUDFunction || !hasOnClick ||
!hasMapRendering` guarding the in-call regeneration of `generatePage`. -/
def pageValidationFailed (code : String) : Bool :=
  !hasUseState code || !hasStateVariable code || !hasCRUDFunction code ||
  !hasOnClick code || !hasMapRendering code

/-- A deduplicated UI component candidate as produced by the extractor
(src/unnamed/part_001): its tagged type and name, the URL of the page it was
found on, and — after merging of duplicates — the list of originating page
URLs (`undefined` before any merge, embedded as `none`). -/
structure Component where
  type : String
  name : String
  pageUrl : String
  pages : Option (List String)
deriving DecidableEq, Repr

/-- The part of a crawled page snapshot consumed by the embedded generation
functions (`pageData.title`). -/
structure PageData where
  title : String
deriving DecidableEq, Repr

/-- Embedding of JavaScript `pageData.title.replace(/[^a-zA-Z0-9]/g, '')`. -/
def stripNonAlnum (s : String) : String :=
  String.mk (s.toList.filter fun c =>
    ('a' ≤ c && c ≤ 'z') || ('A' ≤ c && c ≤ 'Z') || ('0' ≤ c && c ≤ '9'))

/-- Embedding of `generateFallbackPage` (src/agent/llm.js lines 1500-1523):
the deterministic statically templated placeholder page built from the page
title and the component list. -/
def generateFallbackPage (pageData : PageData) (components : List Component) : String :=
  let imports := String.intercalate "\n" (components.map fun c =>
    "import " ++ c.name ++ " from \x27../components/" ++ c.name ++ "\x27;")
  let componentUsage := String.intercalate "\n" (components.map fun c =>
    "      <" ++ c.name ++ " />")
  let pageName := stripNonAlnum pageData.title
  ("\nimport React from \x27react\x27;\n" ++ imports ++
   "\n\nconst " ++ pageName ++ "Page: React.FC = () => \x7b\n  return (\n    <div className=\"min-h-screen bg-gray-50\">\n" ++
   componentUsage ++
   "\n    </div>\n  );\n\x7d;\n\nexport default " ++ pageName ++ "Page;\n").trim

/-- Embedding of `generatePage` (src/agent/llm.js lines 254-709).  The two
chat-completion calls are embedded as explicit outcomes `call1`, `call2`
(`Except.error` is a thrown transport/service error, `Except.ok` carries the
returned source text after `extractCodeFromResponse`).  The whole body is
wrapped in `try/catch`; the catch returns the fallback page.  When the first
response fails the five-check gate, one stricter regeneration request is made
and its result is returned without re-validation. -/
def generatePage (pageData : PageData) (components : List Component)
    (call1 call2 : Except String String) : String :=
  match call1 with
  | Except.error _ => generateFallbackPage pageData components
  | Except.ok extractedCode =>
    if pageValidationFailed extractedCode then
      match call2 with
      | Except.error _ => generateFallbackPage pageData components
      | Except.ok retryCode => retryCode
    else extractedCode

/-- Embedding of `validatePageFunctionality` (src/agent/generator.js lines
441-513): the page-level checklist run by the outer retry loop, returning the
list of violation strings in push order. -/
def validatePageFunctionality (code : String) (filename : String) : List String :=
  let issues : List String := []
  let hasButtons := jsIncludes code "<button"
  let issues := if hasButtons && !jsIncludes code "onClick" then
    issues ++ ["Buttons missing onClick handlers"] else issues
  let hasCheckboxes := jsIncludes code "type=\"checkbox\""
  let issues := if hasCheckboxes && !jsIncludes code "onChange" then
    issues ++ ["Checkboxes missing onChange handlers"] else issues
  let hasTextInputs := jsIncludes code "type=\"text\""
  let issues := if hasTextInputs && !jsIncludes code "onChange" then
    issues ++ ["Text inputs missing onChange handlers"] else issues
  let hasCRUDButtons := jsIncludesCI code "Add" || jsIncludesCI code "Create" ||
    jsIncludesCI code "Delete" || jsIncludesCI code "Remove" || jsIncludesCI code "Edit"
  let issues :=
    if hasCRUDButtons then
      let hasAddFunction := jsIncludes code "addTask" || jsIncludes code "addItem" ||
        jsIncludes code "addProject"
      let hasDeleteFunction := jsIncludes code "deleteTask" || jsIncludes code "deleteItem" ||
        jsIncludes code "deleteProject"
      let hasToggleFunction := jsIncludes code "toggleTask" || jsIncludes code "toggleItem"
      let hasEditFunction := jsIncludes code "editTask" || jsIncludes code "editItem" ||
        jsIncludes code "editProject" || jsIncludes code "startEdit" ||
        jsIncludes code "saveEdit" || jsIncludes code "setEditingId"
      let issues := if !hasAddFunction && (jsIncludesCI code "Add" || jsIncludesCI code "Create") then
        issues ++ ["Add/Create button without add function"] else issues
      let issues := if !hasDeleteFunction && (jsIncludesCI code "Delete" || jsIncludesCI code "Remove") then
        issues ++ ["Delete/Remove button without delete function"] else issues
      let issues := if !hasEditFunction && jsIncludesCI code "Edit" then
        issues ++ ["Edit button without edit functionality (missing editTask/startEdit/saveEdit)"] else issues
      let issues := if hasCheckboxes && !hasToggleFunction then
        issues ++ ["Checkboxes without toggle function"] else issues
      issues
    else issues
  let issues := if (hasButtons || hasCheckboxes || hasTextInputs) && !jsIncludes code "useState" then
    issues ++ ["Interactive elements without useState"] else issues
  let issues := if jsIncludes filename "Task" && jsIncludes code "tasks.map" &&
      !jsIncludes code "useNavigate" then
    issues ++ ["Task list page missing navigation to task detail pages (needs useNavigate)"] else issues
  let issues :=
    if jsIncludes filename "Project" && jsIncludes code "project" then
      let issues := if !jsIncludes code "addProject" then
        issues ++ ["Project page missing Add Project functionality"] else issues
      let issues := if !jsIncludes code "editProject" then
        issues ++ ["Project page missing Edit Project functionality"] else issues
      let issues := if !jsIncludes code "deleteProject" then
        issues ++ ["Project page missing Delete Project functionality"] else issues
      issues
    else issues
  issues

/-- The retry ceiling `MAX_RETRIES` of src/agent/generator.js line 520. -/
def MAX_RETRIES : Nat := 3

/-- State of the per-page generate/validate/retry `while` loop of
`generatePages` (src/agent/generator.js lines 531-571): the mutable
`retries` and `previousIssues` variables, the sequence of file contents
written to the page file path so far, and the number of generation attempts
performed so far. -/
structure GPState where
  retries : Nat
  previousIssues : Option (List String)
  writes : List String
  calls : Nat
deriving DecidableEq, Repr

/-- One-page embedding of the `while (retries < MAX_RETRIES && !success)` loop
of `generatePages` (src/agent/generator.js lines 535-571).  The body of the
`try` block up to the generated code (prompt build plus `generatePage` plus
any thrown error) is embedded as the outcome `attempts st.calls`; the fuel
argument equals `MAX_RETRIES - retries` and only decreases on the branches in
which the source loops again.  On a successful attempt the code is validated:
zero violations writes the file and stops; otherwise `retries` is bumped and,
at the ceiling, the code is written anyway.  A thrown error only bumps
`retries`, writing nothing. -/
def generatePagesLoopAux (filename : String) (attempts : Nat → Except String String) :
    Nat → GPState → GPState
  | 0, st => st
  | fuel + 1, st =>
    match attempts st.calls with
    | Except.error _ =>
      if st.retries + 1 ≥ MAX_RETRIES then
        { st with retries := st.retries + 1, calls := st.calls + 1 }
      else
        generatePagesLoopAux filename attempts fuel
          { st with retries := st.retries + 1, calls := st.calls + 1 }
    | Except.ok code =>
      let issues := validatePageFunctionality code filename
      if issues.isEmpty then
        { st with writes := st.writes ++ [code], calls := st.calls + 1 }
      else if st.retries + 1 < MAX_RETRIES then
        generatePagesLoopAux filename attempts fuel
          { st with retries := st.retries + 1, previousIssues := some issues,
                    calls := st.calls + 1 }
      else
        { st with retries := st.retries + 1, previousIssues := some issues,
                  writes := st.writes ++ [code], calls := st.calls + 1 }

/-- The per-page retry loop run from its initial state (`retries = 0`,
`previousIssues = null`, nothing written, no generation calls made). -/
def generatePagesLoop (filename : String) (attempts : Nat → Except String String) : GPState :=
  generatePagesLoopAux filename attempts MAX_RETRIES
    { retries := 0, previousIssues := none, writes := [], calls := 0 }

/-- Embedding of the `validationSection` template of `buildPagePrompt`
(src/agent/llm.js lines 981-996): empty for a first attempt, otherwise the
corrective block listing each violation and the matching implementation
requirements. -/
def buildPagePromptValidationSection (validationIssues : List String) : String :=
  if validationIssues.isEmpty then "" else
    let bar := String.mk (List.replicate 75 '━')
    "\n" ++ bar ++ "\n✅ REQUIRED FUNCTIONALITY IMPROVEMENTS:\n" ++ bar ++
    "\n\nPlease ensure the following functionality is included:\n\n" ++
    String.intercalate "\n" (validationIssues.map fun issue => "• " ++ issue) ++
    "\n\nImplementation requirements:\n" ++
    (if validationIssues.contains "Buttons missing onClick handlers" then
      "• Add onClick handlers to buttons that perform actions\n" else "") ++
    (if validationIssues.contains "Checkboxes missing onChange handlers" then
      "• Add onChange handlers to checkboxes for state updates\n" else "") ++
    (if validationIssues.contains "Text inputs missing onChange handlers" then
      "• Add onChange handlers to text inputs with state binding\n" else "") ++
    (if validationIssues.contains "Add/Create button without add function" then
      "• Include addTask or addItem function to append to state array\n" else "") ++
    (if validationIssues.contains "Delete/Remove button without delete function" then
      "• Include deleteTask or deleteItem function to filter state array\n" else "") ++
    (if validationIssues.contains "Checkboxes without toggle function" then
      "• Include toggleTask or toggleItem function to update completion status\n" else "") ++
    (if validationIssues.contains "Interactive elements without useState" then
      "• Add useState hook at component top: const [items, setItems] = useState([...])\n" else "") ++
    "\n" ++ bar ++ "\n"

/-- Structural embedding of the prompt string built by `buildPagePrompt`
(src/agent/llm.js lines 1039-1051 onward): the literal header, then the
validation section, then the remainder of the template (page information,
design tokens and the visual-analysis checklist), which does not depend on
the violation list and is abstracted as `rest`. -/
def buildPagePrompt (validationIssues : List String) (rest : String) : String :=
  "Page Replication Task\n" ++ buildPagePromptValidationSection validationIssues ++ rest

/-- Embedding of `path.basename(file, '.tsx')` for the slash-free filenames
produced by the generator. -/
def basenameTsx (file : String) : String :=
  if jsEndsWith file ".tsx" then String.mk (file.toList.take (file.toList.length - 4))
  else file

/-- Embedding of the route chosen for one page filename by `generateAppTsx`
(src/agent/generator.js lines 1076-1085). -/
def routeForName (name : String) : String :=
  if jsIncludes name "Projects" then "/projects"
  else if jsIncludes name "Tasks" && !jsIncludes name "Detail" then "/tasks"
  else if name = "HomePage" then "/"
  else "/"

/-- Embedding of the route table built by `generateAppTsx`
(src/agent/generator.js lines 1066-1104): one `(path, component)` entry per
`.tsx` page file, in file order, plus the explicit `/tasks/:id` entry when a
TaskDetail-named file is present. -/
def appRouteTable (pageFiles : List String) : List (String × String) :=
  let pages := pageFiles.filter fun f => jsEndsWith f ".tsx"
  let routes := pages.map fun file =>
    let name := basenameTsx file
    (routeForName name, name)
  let hasTaskDetailPage := pages.any fun f => jsIncludes f "TaskDetail"
  routes ++ (if hasTaskDetailPage then [("/tasks/:id", "TaskDetailPage")] else [])

/-- The Map key `` `${comp.type}-${comp.name}` `` used by
`deduplicateComponents` (src/unnamed/part_001 line 240). -/
def componentKey (c : Component) : String :=
  c.type ++ "-" ++ c.name

/-- One step of `deduplicateComponents` (src/unnamed/part_001 lines 239-254):
a new key is inserted at the end of the map, a duplicate merges its page URL
into the retained candidate's `pages` list (initialising that list with the
retained candidate's own URL first). -/
def dedupStep (m : List (String × Component)) (comp : Component) : List (String × Component) :=
  let key := componentKey comp
  if m.any (fun p => p.1 = key) then
    m.map fun p =>
      if p.1 = key then
        (p.1,
          let existingPages := match p.2.pages with
            | none => [p.2.pageUrl]
            | some ps => ps
          let newPages := if existingPages.contains comp.pageUrl then existingPages
            else existingPages ++ [comp.pageUrl]
          { p.2 with pages := some newPages })
      else p
  else m ++ [(key, comp)]

/-- Embedding of `deduplicateComponents` (src/unnamed/part_001 lines 236-257):
fold the candidates into an insertion-ordered key map and return the retained
values. -/
def deduplicateComponents (components : List Component) : List Component :=
  (components.foldl dedupStep []).map (·.2)

/-- The fixed `(type, name)` vocabulary produced by `detectComponent`
(src/unnamed/part_001 lines 89-177). -/
def componentVocab : List (String × String) :=
  [("header", "Header"), ("sidebar", "Sidebar"), ("main", "MainContent"),
   ("card", "Card"), ("list", "List"), ("button", "Button"),
   ("form", "Form"), ("modal", "Modal")]

/-- A color string as classified by src/agent/css-parser.js: either one whose
first regex match `rgba?\((\d+),\s*(\d+),\s*(\d+)` captured the three integer
components, or one starting with `#` (with `hexDigits` the text after the
first `#`), or anything else. -/
inductive ColorSpec where
  | rgb (r g b : Nat)
  | hex (hexDigits : String)
  | other
deriving DecidableEq, Repr

/-- Embedding of JavaScript `parseInt(s, 16)` on the short digit strings cut
out of a hex color: the longest hex-digit prefix is parsed, and `NaN` (no
digit at all) is `none`. -/
def jsParseHex (l : List Char) : Option Nat :=
  let hexVal : Char → Option Nat := fun c =>
    let n := c.toNat
    if 48 ≤ n && n ≤ 57 then some (n - 48)
    else if 97 ≤ n && n ≤ 102 then some (n - 87)
    else if 65 ≤ n && n ≤ 70 then some (n - 55)
    else none
  let digits := l.takeWhile fun c => (hexVal c).isSome
  if digits.isEmpty then none
  else some (digits.foldl (fun acc c => acc * 16 + ((hexVal c).getD 0)) 0)

/-- Brightness test of the hex branch of `isDarkColor` (src/agent/css-parser.js
lines 231-238): the three components are `parseInt(hex.substr(0,2), 16)`,
`parseInt(hex.substr(2,2), 16)` and `parseInt(hex.substr(4,2), 16)`; if any
is `NaN` the comparison `NaN < 128` is false.  The source comparison
`(r * 299 + g * 587 + b * 114) / 1000 < 128` is written in the equivalent
integer form `r * 299 + g * 587 + b * 114 < 128000` (the equivalence to the
division form is proved in `isDarkColor_matches_luma`). -/
def hexBrightnessLt128 (hexDigits : String) : Bool :=
  let l := hexDigits.toList
  match jsParseHex (l.take 2), jsParseHex ((l.drop 2).take 2), jsParseHex ((l.drop 4).take 2) with
  | some r, some g, some b => decide (r * 299 + g * 587 + b * 114 < 128000)
  | _, _, _ => false

/-- Embedding of `isDarkColor` (src/agent/css-parser.js lines 221-241):
`(r * 299 + g * 587 + b * 114) / 1000 < 128` on the captured rgb components
(written in the equivalent integer form, see `hexBrightnessLt128`), the same
test on the parsed hex pairs, and `false` for anything else. -/
def isDarkColor : ColorSpec → Bool
  | ColorSpec.rgb r g b => decide (r * 299 + g * 587 + b * 114 < 128000)
  | ColorSpec.hex h => hexBrightnessLt128 h
  | ColorSpec.other => false

/-- Embedding of `isVibrantColor` (src/agent/css-parser.js lines 246-256):
saturation `(max - min) / max` (declared `0` when `max === 0`) compared
against the `0.3` threshold.  This function is defined but never reached:
`categorizeColors` calls the misspelled name `isVibranthColor`. -/
def isVibrantColor : ColorSpec → Bool
  | ColorSpec.rgb r g b =>
    let mx := max r (max g b)
    let mn := min r (min g b)
    let saturation : ℚ := if mx = 0 then 0 else ((mx : ℚ) - (mn : ℚ)) / (mx : ℚ)
    decide (saturation > 3 / 10)
  | _ => false

/-- The color sets of the `styleData` accumulator consumed by
`categorizeColors` (src/agent/css-parser.js lines 11-23, 155-216). -/
structure StyleData where
  colors : List ColorSpec
  backgroundColors : List ColorSpec
  textColors : List ColorSpec
  borderColors : List ColorSpec
deriving DecidableEq, Repr

/-- The design-token record assembled by `categorizeColors`
(src/agent/css-parser.js lines 156-215); absent entries are `none`. -/
structure DesignTokens where
  backgroundsDark : Option ColorSpec
  backgroundsDarkAlt : Option ColorSpec
  backgroundsLight : Option ColorSpec
  backgroundsLightAlt : Option ColorSpec
  textPrimary : Option ColorSpec
  textSecondary : Option ColorSpec
  textLight : Option ColorSpec
  accentsPrimary : Option ColorSpec
  accentsSecondary : Option ColorSpec
  accentsTertiary : Option ColorSpec
  accentsWarning : Option ColorSpec
  bordersDefault : Option ColorSpec
deriving DecidableEq, Repr

/-- Embedding of `getMostFrequent` (src/agent/css-parser.js lines 261-269):
the color with the highest occurrence count, first-seen order breaking ties
(object keys are kept in insertion order and the sort is stable). -/
def getMostFrequent (colors : List ColorSpec) : Option ColorSpec :=
  let uniq := colors.foldl (fun acc c => if acc.contains c then acc else acc ++ [c]) []
  uniq.foldl
    (fun best c =>
      match best with
      | none => some c
      | some b => if colors.count c > colors.count b then some c else best)
    none

/-- Embedding of `categorizeColors` (src/agent/css-parser.js lines 155-216).
The background and text buckets are computed as in the source.  The accent
pass then evaluates `allColors.filter(c => isVibranthColor(c))`, and
`isVibranthColor` is not defined anywhere in the module — so for a non-empty
color set the first filter callback throws `ReferenceError: isVibranthColor
is not defined`, which propagates out of the function; only an empty color
set reaches the border bucket and returns. -/
def categorizeColors (styleData : StyleData) : Except String DesignTokens :=
  let bgColors := styleData.backgroundColors
  let darkBgs := bgColors.filter isDarkColor
  let lightBgs := bgColors.filter fun c => !isDarkColor c
  let backgroundsDark := if !darkBgs.isEmpty then getMostFrequent darkBgs else none
  let backgroundsDarkAlt :=
    if !darkBgs.isEmpty then (darkBgs.get? 1).orElse (fun _ => darkBgs.get? 0) else none
  let backgroundsLight := if !lightBgs.isEmpty then getMostFrequent lightBgs else none
  let backgroundsLightAlt :=
    if !lightBgs.isEmpty then (lightBgs.get? 1).orElse (fun _ => lightBgs.get? 0) else none
  let textColors := styleData.textColors
  let darkText := textColors.filter isDarkColor
  let lightText := textColors.filter fun c => !isDarkColor c
  let textPrimary := if !darkText.isEmpty then getMostFrequent darkText else none
  let textSecondary :=
    if !darkText.isEmpty then (darkText.get? 1).orElse (fun _ => darkText.get? 0) else none
  let textLight := if !lightText.isEmpty then getMostFrequent lightText else none
  let allColors := styleData.colors
  if allColors.isEmpty then
    let borderColors := styleData.borderColors
    let bordersDefault := if !borderColors.isEmpty then getMostFrequent borderColors else none
    Except.ok
      { backgroundsDark := backgroundsDark, backgroundsDarkAlt := backgroundsDarkAlt,
        backgroundsLight := backgroundsLight, backgroundsLightAlt := backgroundsLightAlt,
        textPrimary := textPrimary, textSecondary := textSecondary, textLight := textLight,
        accentsPrimary := none, accentsSecondary := none, accentsTertiary := none,
        accentsWarning := none, bordersDefault := bordersDefault }
  else
    Except.error "ReferenceError: isVibranthColor is not defined"

/-- Embedding of JavaScript `str.split(sep)` for a single-character separator,
on character lists. -/
def splitOnChar (sep : Char) : List Char → List (List Char)
  | [] => [[]]
  | c :: rest =>
    match splitOnChar sep rest with
    | [] => [[]]
    | s :: ss => if c = sep then [] :: s :: ss else (c :: s) :: ss

/-- Match of the regex `^\d+$`: a non-empty all-digit string. -/
def matchesAllDigits (seg : List Char) : Bool :=
  !seg.isEmpty && seg.all Char.isDigit

/-- Embedding of `getPageFilename` (src/agent/generator.js lines 797-826).
Null arguments are `none`; `!pagePath` is also true for the empty string.
For the fallback branch, the path is split on `/`, empty and purely numeric
segments are dropped, and the last remaining segment is capitalised. -/
def getPageFilename (pagePath : Option String) (pageTitle : Option String) : String :=
  match pagePath with
  | none => "HomePage.tsx"
  | some p =>
    if p = "" then "HomePage.tsx"
    else if jsIncludes p "/home" then "HomePage.tsx"
    else if jsIncludes p "/project" then
      (if (match pageTitle with
           | some t => jsIncludesCI t "my tasks"
           | none => false) then "TasksPage.tsx" else "ProjectsPage.tsx")
    else if jsIncludes p "/tasks" || jsIncludes p "/my_tasks" then "TasksPage.tsx"
    else
      let segments := (splitOnChar '/' p.toList).filter fun seg =>
        !seg.isEmpty && !matchesAllDigits seg
      match segments.getLast? with
      | none => "HomePage.tsx"
      | some lastSegment =>
        let name := match lastSegment with
          | [] => ""
          | c :: cs => String.mk (c.toUpper :: cs.map Char.toLower)
        name ++ "Page.tsx"

/-- Page source text containing a button with a click handler, a `useState`
call binding a `tasks` variable, an `addTask` function and a `.map` rendering
call (the first scenario of claim C5). -/
def pageCodeWithClick : String :=
  "import React, \x7b useState \x7d from \x27react\x27;\nconst [tasks, setTasks] = useState([]);\nconst addTask = () => setTasks([1]);\n<button onClick=\x7baddTask\x7d>Add Task</button>\n\x7btasks.map((t) => <div>\x7bt\x7d</div>)\x7d"

/-- The same page source text with the click handler removed (the second
scenario of claim C5). -/
def pageCodeWithoutClick : String :=
  "import React, \x7b useState \x7d from \x27react\x27;\nconst [tasks, setTasks] = useState([]);\nconst addTask = () => setTasks([1]);\n<button>Add Task</button>\n\x7btasks.map((t) => <div>\x7bt\x7d</div>)\x7d"

/-!
Theorems.  Each claim of the specification audit is settled by exactly one
theorem below (with a closed witness where the theorem carries hypotheses,
and a closed counterexample where the claim had to be corrected).
-/

theorem jsIncludes_iff {s pat : String} :
    jsIncludes s pat = true ↔ pat.toList <:+: s.toList := by
  simp [jsIncludes]

theorem jsIncludes_append_middle {s pat : String} (a r : String)
    (h : jsIncludes s pat = true) : jsIncludes (a ++ s ++ r) pat = true := by
  rw [jsIncludes_iff] at h ⊢
  obtain ⟨u, v, huv⟩ := h
  refine ⟨a.toList ++ u, v ++ r.toList, ?_⟩
  have hsplit : (a ++ s ++ r).toList = a.toList ++ (s.toList ++ r.toList) := by
    simp [String.toList, String.data_append]
  rw [hsplit, ← huv]
  simp

theorem generatePagesLoopAux_calls_le (filename : String)
    (gen : Nat → Except String String) :
    ∀ fuel st, (generatePagesLoopAux filename gen fuel st).calls ≤ st.calls + fuel := by
  intro fuel
  induction fuel with
  | zero => intro st; simp [generatePagesLoopAux]
  | succ n ih =>
    intro st
    rw [generatePagesLoopAux]
    cases h : gen st.calls with
    | error e =>
      dsimp only
      split
      · simp
      · exact le_trans (ih _) (by simp; omega)
    | ok code =>
      dsimp only
      split
      · simp
      · split
        · exact le_trans (ih _) (by simp; omega)
        · simp

theorem generatePagesLoopAux_writes (filename : String)
    (gen : Nat → Except String String) :
    ∀ fuel st, (generatePagesLoopAux filename gen fuel st).writes = st.writes ∨
      ∃ c, (generatePagesLoopAux filename gen fuel st).writes = st.writes ++ [c] := by
  intro fuel
  induction fuel with
  | zero => intro st; left; rfl
  | succ n ih =>
    intro st
    rw [generatePagesLoopAux]
    cases h : gen st.calls with
    | error e =>
      dsimp only
      split
      · left; rfl
      · exact ih _
    | ok code =>
      dsimp only
      split
      · right; exact ⟨code, rfl⟩
      · split
        · exact ih _
        · right; exact ⟨code, rfl⟩

theorem generatePagesLoopAux_ok_writes (filename : String)
    (gen : Nat → Except String String) (hok : ∀ i, ∃ c, gen i = Except.ok c) :
    ∀ fuel st, 0 < fuel → st.retries + fuel = MAX_RETRIES →
      ∃ c, (generatePagesLoopAux filename gen fuel st).writes = st.writes ++ [c] := by
  intro fuel
  induction fuel with
  | zero => intro st h0 _; exact absurd h0 (by simp)
  | succ n ih =>
    intro st _ hceil
    obtain ⟨c, hc⟩ := hok st.calls
    rw [generatePagesLoopAux, hc]
    dsimp only
    split
    · exact ⟨c, rfl⟩
    · split
      · rename_i hretry
        refine ih _ ?_ ?_
        · simp only [MAX_RETRIES] at hretry hceil ⊢; omega
        · simp only [MAX_RETRIES] at hceil ⊢; omega
      · exact ⟨c, rfl⟩

/-- Corrected form of claim C1: for any page artifact and any sequence of
attempt outcomes, the retry loop of `generatePages` terminates after at most
`MAX_RETRIES = 3` generation calls (in particular at most ceiling + 1) and
writes at most one file at the artifact's expected path; when no attempt
throws, exactly one file is written.  (The original claim's "exactly one
file" is refuted by `generatePages_error_run_writes_nothing`: a thrown error
on the attempt that exhausts the ceiling leaves nothing written.) -/
theorem generatePages_loop_bounded_writes (filename : String)
    (gen : Nat → Except String String) :
    (generatePagesLoop filename gen).calls ≤ MAX_RETRIES ∧
    (generatePagesLoop filename gen).writes.length ≤ 1 ∧
    ((∀ i, ∃ c, gen i = Except.ok c) →
      (generatePagesLoop filename gen).writes.length = 1) := by
  refine ⟨?_, ?_, ?_⟩
  · have := generatePagesLoopAux_calls_le filename gen MAX_RETRIES
      { retries := 0, previousIssues := none, writes := [], calls := 0 }
    simpa [generatePagesLoop] using this
  · have := generatePagesLoopAux_writes filename gen MAX_RETRIES
      { retries := 0, previousIssues := none, writes := [], calls := 0 }
    rcases this with h | ⟨c, h⟩ <;> simp [generatePagesLoop] at h ⊢ <;> simp [h]
  · intro hok
    have := generatePagesLoopAux_ok_writes filename gen hok MAX_RETRIES
      { retries := 0, previousIssues := none, writes := [], calls := 0 }
      (by simp [MAX_RETRIES]) (by simp [MAX_RETRIES])
    obtain ⟨c, h⟩ := this
    simp [generatePagesLoop] at h ⊢
    simp [h]

/-- Witness for the corrected claim C1 at a concrete throw-free run. -/
theorem generatePages_loop_bounded_writes_witness :
    (∀ i : Nat, ∃ c,
      (fun _ : Nat => (Except.ok pageCodeWithClick : Except String String)) i = Except.ok c) ∧
    (generatePagesLoop "HomePage.tsx"
      (fun _ => Except.ok pageCodeWithClick)).writes.length = 1 :=
  ⟨fun _ => ⟨pageCodeWithClick, rfl⟩,
   (generatePages_loop_bounded_writes "HomePage.tsx" (fun _ => Except.ok pageCodeWithClick)).2.2
     (fun _ => ⟨pageCodeWithClick, rfl⟩)⟩

/-- Counterexample to claim C1 as stated: when every generation attempt
throws, the loop exits after 3 calls having written no file at all, so it is
not the case that exactly one file is always written. -/
theorem generatePages_error_run_writes_nothing :
    (generatePagesLoop "HomePage.tsx" (fun _ => Except.error "network error")).writes = [] ∧
    (generatePagesLoop "HomePage.tsx" (fun _ => Except.error "network error")).calls = 3 := by
  constructor <;> rfl

/-- Claim C2: when the attempt ceiling is reached with a non-empty violation
list (three generated attempts, each failing the checklist), the loop writes
the last-generated source text to the artifact's file path — exactly one
write, never an abort — and records the outstanding violations alongside it
in its `previousIssues` state. -/
theorem generatePages_ceiling_accepts_last_text (filename : String)
    (gen : Nat → Except String String) (c0 c1 c2 : String)
    (h0 : gen 0 = Except.ok c0) (h1 : gen 1 = Except.ok c1)
    (h2 : gen 2 = Except.ok c2)
    (v0 : validatePageFunctionality c0 filename ≠ [])
    (v1 : validatePageFunctionality c1 filename ≠ [])
    (v2 : validatePageFunctionality c2 filename ≠ []) :
    (generatePagesLoop filename gen).writes = [c2] ∧
    (generatePagesLoop filename gen).previousIssues =
      some (validatePageFunctionality c2 filename) := by
  have e0 : (validatePageFunctionality c0 filename).isEmpty = false :=
    List.isEmpty_eq_false.mpr v0
  have e1 : (validatePageFunctionality c1 filename).isEmpty = false :=
    List.isEmpty_eq_false.mpr v1
  have e2 : (validatePageFunctionality c2 filename).isEmpty = false :=
    List.isEmpty_eq_false.mpr v2
  rw [generatePagesLoop]
  rw [show MAX_RETRIES = 2 + 1 from rfl, generatePagesLoopAux]
  simp only [h0, e0, MAX_RETRIES]
  norm_num
  rw [show (2 : Nat) = 1 + 1 from rfl, generatePagesLoopAux]
  simp only [h1, e1, MAX_RETRIES]
  norm_num
  rw [show (1 : Nat) = 0 + 1 from rfl, generatePagesLoopAux]
  simp only [h2, e2, MAX_RETRIES]
  norm_num

set_option maxRecDepth 4000 in
/-- Witness for claim C2: a run whose three attempts all return a page with a
button but no click handler ends with that page written and the violation
recorded. -/
theorem generatePages_ceiling_accepts_last_text_witness :
    (generatePagesLoop "HomePage.tsx"
        (fun _ => Except.ok pageCodeWithoutClick)).writes = [pageCodeWithoutClick] ∧
    (generatePagesLoop "HomePage.tsx"
        (fun _ => Except.ok pageCodeWithoutClick)).previousIssues =
      some (validatePageFunctionality pageCodeWithoutClick "HomePage.tsx") :=
  generatePages_ceiling_accepts_last_text "HomePage.tsx"
    (fun _ => Except.ok pageCodeWithoutClick)
    pageCodeWithoutClick pageCodeWithoutClick pageCodeWithoutClick
    rfl rfl rfl (by decide) (by decide) (by decide)

/-- Claim C3: a thrown transport or service failure in the generation call is
not retried — `generatePage` returns the deterministic statically templated
fallback page built by `generateFallbackPage` from the page data and
component list, whatever the second call outcome would have been. -/
theorem generatePage_transport_error_returns_fallback (pageData : PageData)
    (components : List Component) (e : String) (call2 : Except String String) :
    generatePage pageData components (Except.error e) call2 =
      generateFallbackPage pageData components := by
  rfl

/-- Claim C4: the page-level gate of `generatePage` consists exactly of the
five substring/regex presence checks — `useState`, a state variable bound to
one of the domain nouns tasks/projects/items/data, a mutation function with
an add/delete/toggle prefix, an `onClick` attachment and a `.map(` call — and
the generated text passes the gate iff all five are present. -/
theorem pageGate_accepts_iff_five_checks (code : String) :
    pageValidationFailed code = false ↔
      (hasUseState code = true ∧ hasStateVariable code = true ∧
       hasCRUDFunction code = true ∧ hasOnClick code = true ∧
       hasMapRendering code = true) := by
  simp only [pageValidationFailed, Bool.or_eq_false_iff, Bool.not_eq_false']
  tauto

set_option maxRecDepth 4000 in
/-- Claim C5: the checklist reports zero violations on the complete page
text, exactly the missing-click-binding violation once the handler is
removed, and the retry prompt built from that violation list literally
contains the corrective text for it, whatever the rest of the prompt
template contains. -/
theorem validate_and_reprompt_click_scenario :
    validatePageFunctionality pageCodeWithClick "HomePage.tsx" = [] ∧
    validatePageFunctionality pageCodeWithoutClick "HomePage.tsx" =
      ["Buttons missing onClick handlers"] ∧
    (∀ rest : String,
      jsIncludes (buildPagePrompt ["Buttons missing onClick handlers"] rest)
        "Buttons missing onClick handlers" = true ∧
      jsIncludes (buildPagePrompt ["Buttons missing onClick handlers"] rest)
        "Add onClick handlers to buttons that perform actions" = true) := by
  refine ⟨by decide, by decide, fun rest => ⟨?_, ?_⟩⟩
  · exact jsIncludes_append_middle "Page Replication Task\n" rest (by decide)
  · exact jsIncludes_append_middle "Page Replication Task\n" rest (by decide)

/-- Counterexample to claim C6 as stated: on the scenario filenames the route
list is not exactly the three claimed entries plus `/tasks/:id` — the builder
also emits a default `"/"` route for `TaskDetailPage` (its name contains
neither `Projects` nor `Tasks`). -/
theorem appRouteTable_scenario_counterexample :
    appRouteTable ["HomePage.tsx", "ProjectsPage.tsx", "TasksPage.tsx", "TaskDetailPage.tsx"] ≠
      [("/", "HomePage"), ("/projects", "ProjectsPage"), ("/tasks", "TasksPage"),
       ("/tasks/:id", "TaskDetailPage")] ∧
    ("/", "TaskDetailPage") ∈
      appRouteTable ["HomePage.tsx", "ProjectsPage.tsx", "TasksPage.tsx", "TaskDetailPage.tsx"] := by
  constructor <;> decide

/-- Corrected form of claim C6: every `.tsx` page file receives a route entry
— `Projects` names map to `/projects`, `Tasks` names without `Detail` map to
`/tasks`, and everything else (including `TaskDetailPage` itself) defaults to
`/` — so the scenario filenames produce those three claimed entries plus a
default `"/" → TaskDetailPage` entry, plus the explicit `/tasks/:id →
TaskDetailPage` entry added because a TaskDetail-named file is present. -/
theorem appRouteTable_scenario_and_rules :
    (appRouteTable ["HomePage.tsx", "ProjectsPage.tsx", "TasksPage.tsx", "TaskDetailPage.tsx"] =
      [("/", "HomePage"), ("/projects", "ProjectsPage"), ("/tasks", "TasksPage"),
       ("/", "TaskDetailPage"), ("/tasks/:id", "TaskDetailPage")]) ∧
    (∀ name, jsIncludes name "Projects" = true → routeForName name = "/projects") ∧
    (∀ name, jsIncludes name "Projects" = false → jsIncludes name "Tasks" = true →
      jsIncludes name "Detail" = false → routeForName name = "/tasks") ∧
    (∀ name, jsIncludes name "Projects" = false →
      (jsIncludes name "Tasks" = false ∨ jsIncludes name "Detail" = true) →
      routeForName name = "/") := by
  refine ⟨by decide, fun name h => by simp [routeForName, h], ?_, ?_⟩
  · intro name h1 h2 h3
    simp [routeForName, h1, h2, h3]
  · intro name h1 h2
    have hb : (jsIncludes name "Tasks" && !jsIncludes name "Detail") = false := by
      rcases h2 with h2 | h2 <;> simp [h2]
    simp only [routeForName, h1, hb, Bool.false_eq_true, if_false]
    split <;> rfl

/-- Witness for the corrected claim C6: the rule conjuncts applied at
concrete names. -/
theorem appRouteTable_scenario_and_rules_witness :
    routeForName "ProjectsPage" = "/projects" ∧
    routeForName "TasksPage" = "/tasks" ∧
    routeForName "TaskDetailPage" = "/" :=
  ⟨appRouteTable_scenario_and_rules.2.1 "ProjectsPage" (by decide),
   appRouteTable_scenario_and_rules.2.2.1 "TasksPage" (by decide) (by decide) (by decide),
   appRouteTable_scenario_and_rules.2.2.2 "TaskDetailPage" (by decide) (Or.inl (by decide))⟩

theorem componentVocab_key_injective :
    ∀ p ∈ componentVocab, ∀ q ∈ componentVocab,
      p ≠ q → p.1 ++ "-" ++ p.2 ≠ q.1 ++ "-" ++ q.2 := by
  decide

/-- Claim C7: two fresh candidates with the same `(type, name)` pair but
different origin page URLs are merged into exactly one retained candidate
whose origin-page list contains both URLs, while candidates with distinct
`(type, name)` pairs from the tagger's vocabulary are both retained. -/
theorem deduplicateComponents_merges_duplicates (c1 c2 : Component) :
    (c1.type = c2.type → c1.name = c2.name → c1.pageUrl ≠ c2.pageUrl →
      c1.pages = none →
      deduplicateComponents [c1, c2] =
        [{ c1 with pages := some [c1.pageUrl, c2.pageUrl] }]) ∧
    ((c1.type, c1.name) ∈ componentVocab → (c2.type, c2.name) ∈ componentVocab →
      (c1.type, c1.name) ≠ (c2.type, c2.name) →
      deduplicateComponents [c1, c2] = [c1, c2]) := by
  constructor
  · intro htype hname hurl hpages
    have hkey : componentKey c2 = componentKey c1 := by
      simp [componentKey, htype, hname]
    have hcontains : List.contains [c1.pageUrl] c2.pageUrl = false := by
      simp [List.contains]
      exact fun h => hurl h.symm
    simp [deduplicateComponents, dedupStep, hkey, hpages, hcontains]
    exact fun h => hurl h.symm
  · intro h1 h2 hne
    have hkey : componentKey c1 ≠ componentKey c2 := by
      have hinj := componentVocab_key_injective (c1.type, c1.name) h1 (c2.type, c2.name) h2 hne
      simpa [componentKey] using hinj
    simp [deduplicateComponents, dedupStep, hkey]

/-- Witness for claim C7: a concrete Header candidate seen on two pages is
merged, and a Header plus a Sidebar candidate are both retained. -/
theorem deduplicateComponents_merges_duplicates_witness :
    deduplicateComponents
      [⟨"header", "Header", "https://a.example", none⟩,
       ⟨"header", "Header", "https://b.example", none⟩] =
      [⟨"header", "Header", "https://a.example",
        some ["https://a.example", "https://b.example"]⟩] ∧
    deduplicateComponents
      [⟨"header", "Header", "https://a.example", none⟩,
       ⟨"sidebar", "Sidebar", "https://a.example", none⟩] =
      [⟨"header", "Header", "https://a.example", none⟩,
       ⟨"sidebar", "Sidebar", "https://a.example", none⟩] :=
  ⟨(deduplicateComponents_merges_duplicates _ _).1 rfl rfl (by decide) rfl,
   (deduplicateComponents_merges_duplicates _ _).2 (by decide) (by decide) (by decide)⟩

theorem luma_div_lt_iff (r g b : Nat) :
    (((r : ℚ) * 299 + (g : ℚ) * 587 + (b : ℚ) * 114) / 1000 < 128) ↔
      ((299 : ℚ) / 1000 * r + 587 / 1000 * g + 114 / 1000 * b < 128) := by
  rw [div_lt_iff₀ (by norm_num : (0 : ℚ) < 1000)]
  constructor <;> intro h <;> linarith

theorem luma_nat_lt_iff (r g b : Nat) :
    (r * 299 + g * 587 + b * 114 < 128000) ↔
      ((299 : ℚ) / 1000 * r + 587 / 1000 * g + 114 / 1000 * b < 128) := by
  constructor
  · intro h
    have hq : ((r : ℚ) * 299 + (g : ℚ) * 587 + (b : ℚ) * 114) < 128000 := by
      exact_mod_cast h
    linarith
  · intro h
    have hq : ((r : ℚ) * 299 + (g : ℚ) * 587 + (b : ℚ) * 114) < 128000 := by linarith
    exact_mod_cast hq

/-- Counterexample to claim C8 as stated: the shorthand hex color `#000` has
integer RGB components `(0, 0, 0)` whose luma `0` is below the threshold, yet
`isDarkColor` classifies it as light (its blue pair `parseInt('', 16)` is
`NaN`, and `NaN < 128` is false), so the code does not classify every hex
color identically to the luma formula. -/
theorem isDarkColor_shorthand_hex_counterexample :
    isDarkColor (ColorSpec.hex "000") = false ∧
    ((299 : ℚ) / 1000 * 0 + 587 / 1000 * 0 + 114 / 1000 * 0 < 128) := by
  constructor
  · decide
  · norm_num

/-- Corrected form of claim C8: the code's integer form
`(r * 299 + g * 587 + b * 114) / 1000 < 128` classifies a color as dark
exactly when the spec's luma `0.299 r + 0.587 g + 0.114 b` is below 128, for
every `rgb()`/`rgba()` color and for every hex color whose three
two-character component slices parse as hex numbers; shorthand hex colors
with fewer than six digits are instead always classified light (see the
counterexample). -/
theorem isDarkColor_matches_luma :
    (∀ r g b : Nat,
      (isDarkColor (ColorSpec.rgb r g b) = true ↔
        (((r : ℚ) * 299 + (g : ℚ) * 587 + (b : ℚ) * 114) / 1000 < 128)) ∧
      (isDarkColor (ColorSpec.rgb r g b) = true ↔
        ((299 : ℚ) / 1000 * r + 587 / 1000 * g + 114 / 1000 * b < 128))) ∧
    (∀ h : String, ∀ r g b : Nat,
      jsParseHex (h.toList.take 2) = some r →
      jsParseHex ((h.toList.drop 2).take 2) = some g →
      jsParseHex ((h.toList.drop 4).take 2) = some b →
      (isDarkColor (ColorSpec.hex h) = true ↔
        ((299 : ℚ) / 1000 * r + 587 / 1000 * g + 114 / 1000 * b < 128))) := by
  constructor
  · intro r g b
    constructor
    · simp only [isDarkColor, decide_eq_true_eq]
      rw [luma_nat_lt_iff, luma_div_lt_iff]
    · simp only [isDarkColor, decide_eq_true_eq]
      exact luma_nat_lt_iff r g b
  · intro h r g b hr hg hb
    simp only [isDarkColor, hexBrightnessLt128, hr, hg, hb, decide_eq_true_eq]
    exact luma_nat_lt_iff r g b

/-- Witness for the corrected claim C8: the dark Asana background `#2e2e30`
parses as `(46, 46, 48)` and both sides of the equivalence agree. -/
theorem isDarkColor_matches_luma_witness :
    (isDarkColor (ColorSpec.hex "2e2e30") = true ↔
      ((299 : ℚ) / 1000 * 46 + 587 / 1000 * 46 + 114 / 1000 * 48 < 128)) ∧
    isDarkColor (ColorSpec.hex "2e2e30") = true :=
  ⟨isDarkColor_matches_luma.2 "2e2e30" 46 46 48 (by decide) (by decide) (by decide),
   by decide⟩

/-- Claim C9, settled against the code as a defect: `isVibrantColor` does
implement exactly the `(max - min) / max > 0.3` saturation threshold (first
conjunct; in `ℚ` the `max = 0` case coincides with the source's explicit
`saturation = 0` special case), but the accent-categorization pass never
reaches it — `categorizeColors` invokes the misspelled `isVibranthColor`, so
for every non-empty extracted color set it throws a `ReferenceError` instead
of completing and assigning accent tokens. -/
theorem categorizeColors_accent_pass_throws :
    (∀ r g b : Nat,
      isVibrantColor (ColorSpec.rgb r g b) = true ↔
        (((max r (max g b) : ℚ) - (min r (min g b) : ℚ)) / (max r (max g b) : ℚ) >
          3 / 10)) ∧
    (∀ styleData : StyleData, styleData.colors ≠ [] →
      categorizeColors styleData =
        Except.error "ReferenceError: isVibranthColor is not defined") := by
  constructor
  · intro r g b
    simp only [isVibrantColor, decide_eq_true_eq]
    by_cases hm : max r (max g b) = 0
    · rcases Nat.max_eq_zero_iff.mp hm with ⟨hr, hgb⟩
      rcases Nat.max_eq_zero_iff.mp hgb with ⟨hg, hb⟩
      subst hr; subst hg; subst hb
      norm_num
    · simp [hm]
  · intro styleData hne
    have he : styleData.colors.isEmpty = false := List.isEmpty_eq_false.mpr hne
    simp [categorizeColors, he]

/-- Witness for claim C9: a style-data record holding the single extracted
color `rgb(255, 88, 74)` makes `categorizeColors` throw. -/
theorem categorizeColors_accent_pass_throws_witness :
    ([ColorSpec.rgb 255 88 74] ≠ ([] : List ColorSpec)) ∧
    categorizeColors
        { colors := [ColorSpec.rgb 255 88 74], backgroundColors := [],
          textColors := [], borderColors := [] } =
      Except.error "ReferenceError: isVibranthColor is not defined" :=
  ⟨by decide,
   categorizeColors_accent_pass_throws.2
     { colors := [ColorSpec.rgb 255 88 74], backgroundColors := [],
       textColors := [], borderColors := [] }
     (by decide)⟩

theorem splitOnChar_ne_nil (sep : Char) (l : List Char) : splitOnChar sep l ≠ [] := by
  cases l with
  | nil => simp [splitOnChar]
  | cons a rest =>
    rw [splitOnChar]
    cases h : splitOnChar sep rest with
    | nil => simp
    | cons s ss => dsimp only; split <;> simp

theorem splitOnChar_cover (sep : Char) :
    ∀ l : List Char, ∀ c ∈ l, c = sep ∨ ∃ s ∈ splitOnChar sep l, c ∈ s := by
  intro l
  induction l with
  | nil => simp
  | cons a rest ih =>
    intro c hc
    rw [List.mem_cons] at hc
    cases h : splitOnChar sep rest with
    | nil => exact absurd h (splitOnChar_ne_nil sep rest)
    | cons s ss =>
      rcases hc with rfl | hc
      · by_cases ha : c = sep
        · exact Or.inl ha
        · refine Or.inr ⟨c :: s, ?_, by simp⟩
          rw [splitOnChar, h]
          simp [ha]
      · rcases ih c hc with hsep | ⟨s', hs', hcs'⟩
        · exact Or.inl hsep
        · right
          rw [h, List.mem_cons] at hs'
          rw [splitOnChar, h]
          by_cases ha : a = sep
          · rcases hs' with rfl | hmem
            · exact ⟨s', by simp [ha], hcs'⟩
            · exact ⟨s', by simp [ha, hmem], hcs'⟩
          · rcases hs' with rfl | hmem
            · exact ⟨a :: s', by simp [ha], by simp [hcs']⟩
            · exact ⟨s', by simp [ha, hmem], hcs'⟩

theorem jsIncludes_false_of_digits_slash (p : String)
    (hall : ∀ seg ∈ splitOnChar '/' p.toList, seg = [] ∨ seg.all Char.isDigit = true)
    (pat : String) (c : Char) (hc : c ∈ pat.toList) (hcs : c ≠ '/')
    (hcd : c.isDigit = false) : jsIncludes p pat = false := by
  cases hI : jsIncludes p pat with
  | false => rfl
  | true =>
    exfalso
    rw [jsIncludes_iff] at hI
    have hmem : c ∈ p.toList := hI.subset hc
    rcases splitOnChar_cover '/' p.toList c hmem with h | ⟨s, hs, hcs2⟩
    · exact hcs h
    · rcases hall s hs with rfl | hdig
      · exact absurd hcs2 (List.not_mem_nil c)
      · rw [List.all_eq_true] at hdig
        rw [hdig c hcs2] at hcd
        exact Bool.true_eq_false.mp hcd

/-- Claim C10: `getPageFilename` is total, always returns a string ending in
`Page.tsx`, and returns `HomePage.tsx` for a null or empty path and for any
path all of whose slash-separated segments are empty or purely numeric. -/
theorem getPageFilename_wellformed :
    (∀ pagePath pageTitle, ∃ s, getPageFilename pagePath pageTitle = s ++ "Page.tsx") ∧
    (∀ pageTitle, getPageFilename none pageTitle = "HomePage.tsx") ∧
    (∀ pageTitle, getPageFilename (some "") pageTitle = "HomePage.tsx") ∧
    (∀ p pageTitle,
      (∀ seg ∈ splitOnChar '/' p.toList, seg = [] ∨ seg.all Char.isDigit = true) →
      getPageFilename (some p) pageTitle = "HomePage.tsx") := by
  refine ⟨?_, fun pageTitle => rfl, fun pageTitle => by simp [getPageFilename], ?_⟩
  · intro pagePath pageTitle
    cases pagePath with
    | none =>
      have hnone : getPageFilename none pageTitle = "HomePage.tsx" := rfl
      rw [hnone]
      exact ⟨"Home", by decide⟩
    | some p =>
      rw [getPageFilename.eq_def]
      dsimp only
      repeat' split
      all_goals first
        | exact ⟨"Home", by decide⟩
        | exact ⟨"Tasks", by decide⟩
        | exact ⟨"Projects", by decide⟩
        | exact ⟨_, rfl⟩
  · intro p pageTitle hall
    by_cases hp : p = ""
    · simp [getPageFilename, hp]
    · have h1 : jsIncludes p "/home" = false :=
        jsIncludes_false_of_digits_slash p hall "/home" 'h' (by decide) (by decide) (by decide)
      have h2 : jsIncludes p "/project" = false :=
        jsIncludes_false_of_digits_slash p hall "/project" 'j' (by decide) (by decide) (by decide)
      have h3 : jsIncludes p "/tasks" = false :=
        jsIncludes_false_of_digits_slash p hall "/tasks" 'k' (by decide) (by decide) (by decide)
      have h4 : jsIncludes p "/my_tasks" = false :=
        jsIncludes_false_of_digits_slash p hall "/my_tasks" 'y' (by decide) (by decide) (by decide)
      have h5 : (splitOnChar '/' p.toList).filter
          (fun seg => !seg.isEmpty && !matchesAllDigits seg) = [] := by
        rw [List.filter_eq_nil_iff]
        intro seg hseg
        rcases hall seg hseg with rfl | hdig
        · simp
        · by_cases he : seg.isEmpty <;> simp [matchesAllDigits, hdig, he]
      rw [getPageFilename.eq_def]
      dsimp only
      simp only [hp, h1, h2, h3, h4, Bool.false_eq_true, if_false, Bool.or_self,
        ite_false]
      rw [h5]
      rfl

/-- Witness for claim C10: the path `/123/456` (all segments numeric) maps to
the well-formed default filename. -/
theorem getPageFilename_wellformed_witness :
    getPageFilename (some "/123/456") none = "HomePage.tsx" :=
  getPageFilename_wellformed.2.2.2 "/123/456" none (by decide)
